import Mathlib

set_option maxHeartbeats 1000000

namespace SecAgent

/-!
Shallow embedding of the kernel-side link-syscall monitor of the security
agent, translated from src/pkg/security/ebpf/c/include/hooks/link.h, together
with the segmented path-resolver protocol of the spec (its code,
helpers/path_resolver.h, is not part of the extracted sources) and the bounded
HTTP capture buffer of src/pkg/network/ebpf/c/protocols/http/buffer.h.

The eBPF hooks of link.h are modelled as explicit state transformers over an
engine state holding the per-thread syscall-cache slot for the link event
type, the list of emitted events, the list of inode invalidations, and
bookkeeping counters (pushes, pops, resolver dispatches).  All inputs the
hooks read from the kernel or from external tables (policy, approver matches,
register values, random numbers, ring-buffer offsets, tail-call success) are
collected in an environment record `LinkEnv`.
-/

/-- Event type tag for link events.  The numeric value of the repository's
enum is not in the extracted sources; only its identity is used, so an
arbitrary fixed value stands in for it. -/
def EVENT_LINK : Nat := 6

/-- Marker for a synchronous syscall entry (u8 async = 0 in the source). -/
def SYNC_SYSCALL : Nat := 0

/-- Marker for an asynchronous (io_uring style) entry (u8 async = 1). -/
def ASYNC_SYSCALL : Nat := 1

/-- Event-header flag set when the syscall did not come from a synchronous
syscall entry.  Exact bit value abstracted (constant not in src). -/
def EVENT_FLAGS_ASYNC : Nat := 1

/-- Flag marking a file on the upper layer of an overlay filesystem.  Exact
bit value abstracted (constant not in src). -/
def UPPER_LAYER : Nat := 4

/-- High 32-bit word of the synthetic inode generated for a hard-link target
(line 80 of link.h).  The constant is defined outside the extracted sources;
the theorems only use that it occupies the upper word. -/
def FAKE_INODE_MSW : Nat := 0xdeadc001

/-- Resolver callback id for the link source path (constant abstracted). -/
def PR_PROGKEY_CB_LINK_SRC_KPROBE : Nat := 1

/-- Resolver callback id for the link target path (constant abstracted). -/
def PR_PROGKEY_CB_LINK_DST : Nat := 2

/-- Return code a terminal resolver run stores when a mid-walk discarder
matched (constant from the resolver headers, not in src; value abstracted). -/
def DENTRY_DISCARDED : Int := -2

/-- Return code a terminal resolver run stores when the walk failed
(constant abstracted, distinct from DENTRY_DISCARDED). -/
def DENTRY_ERROR : Int := -3

/-- Policy modes of the policy engine (spec section 4.2). -/
inductive PolicyMode where
  | NO_FILTER
  | ALLOW_LIST
  | DENY_LIST
  deriving DecidableEq, Inhabited

/-- Modelled from the spec: a kernel directory-entry reference is an opaque
handle (spec section 9); the missing helpers (helpers/filesystem.h) read an
inode number, file metadata and an overlayfs bit off it.  `addr` is the
pointer value, 0 standing for NULL. -/
structure Dentry where
  addr : Nat
  ino : Nat
  fmeta : Nat
  overlay : Bool
  deriving DecidableEq, Inhabited

/-- PathKey as used by link.h: mount identifier and inode number (the fields
the extracted code reads and writes). -/
structure PathKey where
  mount_id : Nat
  ino : Nat
  deriving DecidableEq, Inhabited

/-- FileRecord (file_t): PathKey, metadata, layer flags and a reference into
the path-component ring buffer. -/
structure FileRecord where
  path_key : PathKey
  metadata : Nat
  flags : Nat
  path_ref : Nat
  deriving DecidableEq, Inhabited

/-- Link-specific payload of the syscall cache entry: source/target dentries
and source/target file records (link.h lines 52-91). -/
structure LinkPayload where
  src_dentry : Dentry
  target_dentry : Dentry
  src_file : FileRecord
  target_file : FileRecord
  deriving DecidableEq, Inhabited

/-- ResolverState carried inside the syscall cache entry: starting dentry,
path key, discarder type, callback id, iteration counter and last return
code (link.h lines 86-91 and 133-138). -/
structure ResolverRec where
  dentry : Dentry
  key : PathKey
  discarder_type : Nat
  callback : Nat
  iteration : Nat
  ret : Int
  deriving DecidableEq, Inhabited

/-- SyscallCacheEntry (syscall_cache_t) for a link-style call: event type,
policy mode, async flag, discarded flag, link payload and resolver state.
Fields not named in the C initializer are zero, per C aggregate
initialization. -/
structure SyscallCache where
  etype : Nat
  policyMode : PolicyMode
  async : Nat
  discarded : Bool
  link : LinkPayload
  resolver : ResolverRec
  deriving DecidableEq, Inhabited

/-- One recorded call of invalidate_inode: the affected mount id and inode,
and the flag passed as its last argument (link.h line 129 passes the negation
of pass_to_userspace). -/
structure Invalidation where
  mount_id : Nat
  ino : Nat
  bump : Bool
  deriving DecidableEq, Inhabited

/-- The emitted link event (link_event_t): header, syscall return value,
source and target file records, and the enrichment contexts. -/
structure LinkEvent where
  etype : Nat
  timestamp : Nat
  retval : Int
  flags : Nat
  source : FileRecord
  target : FileRecord
  process : Nat
  container : Nat
  span : Nat
  deriving DecidableEq, Inhabited

/-- Engine state for one thread: the per-(thread, event-type) syscall cache
slot for EVENT_LINK, the published events, the recorded inode invalidations,
and counters of cache pushes, cache pops and resolver dispatches. -/
structure EngineState where
  cache : Option SyscallCache
  emitted : List LinkEvent
  invalidations : List Invalidation
  pushes : Nat
  pops : Nat
  dispatches : Nat
  monitorDiscarded : Nat
  deriving DecidableEq, Inhabited

/-- Terminal states of the path resolver (spec section 4.3). -/
inductive DrStatus where
  | done
  | discarded
  | err
  deriving DecidableEq, Inhabited

/-- Environment of one link-syscall instance: everything the hooks read from
the kernel, from external configuration tables or from the host.
`unhandled` models the IS_UNHANDLED_ERROR classification of syscall return
values (its macro is not in the extracted sources); `processDiscarded` the
result of is_discarded_by_process for the fetched policy; `approverMatch`
whether the captured identities match the configured approver predicate;
`srcDispatchOk`/`dstDispatchOk` whether the resolver tail call could be
issued, and `srcTerminal`/`dstTerminal` the terminal state the corresponding
resolver chain reaches. -/
structure LinkEnv where
  policyMode : PolicyMode
  processDiscarded : Bool
  approverMatch : Bool
  eventEnabled : Bool
  unhandled : Int → Bool
  viaSyscallEntry : Bool
  src_dentry : Dentry
  parm3_dentry : Dentry
  parm4_dentry : Dentry
  pos4 : Bool
  targetPathMountId : Nat
  rand : Nat
  srcDispatchOk : Bool
  srcTerminal : DrStatus
  dstDispatchOk : Bool
  dstTerminal : DrStatus
  srcPathRef : Nat
  dstPathRef : Nat
  now : Nat
  procCtx : Nat
  containerCtx : Nat
  spanCtx : Nat
  deriving Inhabited

/-- The engine state at engine start: empty cache slot, nothing emitted. -/
def initState : EngineState :=
  { cache := none, emitted := [], invalidations := [], pushes := 0, pops := 0,
    dispatches := 0, monitorDiscarded := 0 }

/-- Modelled from the spec: push of the Syscall Cache (helpers/syscalls.h is
not in the extracted sources).  Spec section 4.1: push fails (no-op) if an
entry already exists for the key. -/
def cache_syscall (sc : SyscallCache) (st : EngineState) : EngineState :=
  match st.cache with
  | some _ => st
  | none => { st with cache := some sc, pushes := st.pushes + 1 }

/-- Modelled from the spec: peek of the Syscall Cache returns the current
entry or none (spec section 4.1). -/
def peek_syscall (st : EngineState) : Option SyscallCache :=
  st.cache

/-- Modelled from the spec: pop of the Syscall Cache removes and returns the
current entry (spec section 4.1). -/
def pop_syscall (st : EngineState) : Option SyscallCache × EngineState :=
  match st.cache with
  | none => (none, st)
  | some sc => (some sc, { st with cache := none, pops := st.pops + 1 })

/-- Modelled from the spec: filter_syscall of the policy engine
(helpers/approvers.h is not in the extracted sources).  Spec section 4.2:
under DENY_LIST a match discards, under ALLOW_LIST a non-match discards. -/
def filter_syscall (env : LinkEnv) (sc : SyscallCache) : Bool :=
  match sc.policyMode with
  | PolicyMode.NO_FILTER => false
  | PolicyMode.DENY_LIST => env.approverMatch
  | PolicyMode.ALLOW_LIST => !env.approverMatch

/-- Modelled from the spec: mark_as_discarded sets the discarded flag of the
cache entry, so the event never reaches the emitter (spec section 4.2). -/
def mark_as_discarded (sc : SyscallCache) : SyscallCache :=
  { sc with discarded := true }

/-- Return code a terminal resolver run stores in resolver.ret, by terminal
state (DONE stores 0; the error constants are abstracted above). -/
def statusCode : DrStatus → Int
  | DrStatus.done => 0
  | DrStatus.discarded => DENTRY_DISCARDED
  | DrStatus.err => DENTRY_ERROR

/-- trace__sys_link (link.h lines 11-26): fetch the policy, stop before any
allocation when the process-level policy discards the event, otherwise push
a fresh cache entry for EVENT_LINK. -/
def trace__sys_link (env : LinkEnv) (async : Nat) (st : EngineState) : EngineState :=
  if env.processDiscarded then st
  else
    cache_syscall
      { etype := EVENT_LINK, policyMode := env.policyMode, async := async,
        discarded := false,
        link := { src_dentry := { addr := 0, ino := 0, fmeta := 0, overlay := false },
                  target_dentry := { addr := 0, ino := 0, fmeta := 0, overlay := false },
                  src_file := { path_key := { mount_id := 0, ino := 0 }, metadata := 0, flags := 0, path_ref := 0 },
                  target_file := { path_key := { mount_id := 0, ino := 0 }, metadata := 0, flags := 0, path_ref := 0 } },
        resolver := { dentry := { addr := 0, ino := 0, fmeta := 0, overlay := false },
                      key := { mount_id := 0, ino := 0 }, discarder_type := 0,
                      callback := 0, iteration := 0, ret := 0 } }
      st

/-- kprobe_do_linkat (link.h lines 36-43): if no entry is pending, enter the
event as an asynchronous one. -/
def kprobe_do_linkat (env : LinkEnv) (st : EngineState) : EngineState :=
  match peek_syscall st with
  | some _ => st
  | none => trace__sys_link env ASYNC_SYSCALL st

/-- kprobe_dr_link_src_callback (link.h lines 97-112): fill the ring-buffer
reference of the source file, and when the resolver discarded the path,
count it and mark the syscall as discarded. -/
def kprobe_dr_link_src_callback (env : LinkEnv) (st : EngineState) : EngineState :=
  match peek_syscall st with
  | none => st
  | some sc =>
    let sc := { sc with link.src_file.path_ref := env.srcPathRef }
    if sc.resolver.ret = DENTRY_DISCARDED then
      { st with cache := some (mark_as_discarded sc),
                monitorDiscarded := st.monitorDiscarded + 1 }
    else { st with cache := some sc }

/-- dr_link_dst_callback (link.h lines 172-199): pop the cache entry; unless
the syscall return value is an unhandled error, assemble the link event
(header, source and target file records, enrichment contexts, the
ring-buffer reference of the target path) and publish it. -/
def dr_link_dst_callback (env : LinkEnv) (retval : Int) (st : EngineState) : EngineState :=
  match pop_syscall st with
  | (none, st) => st
  | (some sc, st) =>
    if env.unhandled retval then st
    else
      let ev : LinkEvent :=
        { etype := EVENT_LINK, timestamp := env.now, retval := retval,
          flags := if sc.async ≠ 0 then EVENT_FLAGS_ASYNC else 0,
          source := sc.link.src_file,
          target := { sc.link.target_file with path_ref := env.dstPathRef },
          process := env.procCtx, container := env.containerCtx, span := env.spanCtx }
      { st with emitted := st.emitted ++ [ev] }

/-- Modelled from the spec: resolve_path dispatch (helpers/path_resolver.h is
not in the extracted sources).  Spec sections 4.3 and 5: the dispatch is an
explicit continuation handoff; if it cannot be issued the call simply
returns (first component false), otherwise the resolver chain runs to a
terminal state, stores its return code in the entry's resolver.ret and
invokes the completion handler selected by the callback id.  `retval` is the
intercepted call's return value carried unchanged in the probe context. -/
def resolve_path (env : LinkEnv) (retval : Int) (st : EngineState) : Bool × EngineState :=
  match peek_syscall st with
  | none => (false, st)
  | some sc =>
    let isDst := sc.resolver.callback = PR_PROGKEY_CB_LINK_DST
    let ok := if isDst then env.dstDispatchOk else env.srcDispatchOk
    if ok then
      let status := if isDst then env.dstTerminal else env.srcTerminal
      let sc := { sc with resolver.ret := statusCode status }
      let st := { st with cache := some sc, dispatches := st.dispatches + 1 }
      if isDst then (true, dr_link_dst_callback env retval st)
      else (true, kprobe_dr_link_src_callback env st)
    else (false, st)

/-- kprobe_vfs_link (link.h lines 46-95): on the first vfs_link hit of a
pending entry, capture the source and target dentries, derive the source
path key from the target path's mount and the source dentry's inode, apply
the approver filter (a hit marks the entry discarded and returns), copy the
source metadata to the target, forge the synthetic target inode, set the
resolver state up for the source path and dispatch the resolver. -/
def kprobe_vfs_link (env : LinkEnv) (st : EngineState) : EngineState :=
  match peek_syscall st with
  | none => st
  | some sc =>
    if sc.link.target_dentry.addr ≠ 0 then st
    else
      let src := env.src_dentry
      let tgt := if env.pos4 then env.parm4_dentry else env.parm3_dentry
      let sc := { sc with link.src_dentry := src, link.target_dentry := tgt }
      let sc := { sc with link.src_file.path_key.mount_id := env.targetPathMountId }
      let sc := { sc with link.src_file.path_key.ino := src.ino }
      if filter_syscall env sc then
        { st with cache := some (mark_as_discarded sc) }
      else
        let sc := { sc with link.src_file.metadata := src.fmeta }
        let sc := { sc with link.target_file.metadata := sc.link.src_file.metadata }
        let sc := { sc with link.target_file.path_key.ino :=
                      (FAKE_INODE_MSW <<< 32) ||| (env.rand % 2 ^ 32) }
        let sc := { sc with link.target_file.path_key.mount_id := sc.link.src_file.path_key.mount_id }
        let sc := if src.overlay then
            { sc with link.target_file.flags := sc.link.target_file.flags ||| UPPER_LAYER }
          else sc
        let sc := { sc with resolver :=
          { dentry := src, key := sc.link.src_file.path_key,
            discarder_type := if sc.policyMode ≠ PolicyMode.NO_FILTER then EVENT_LINK else 0,
            callback := PR_PROGKEY_CB_LINK_SRC_KPROBE, iteration := 0, ret := 0 } }
        let st := { st with cache := some sc }
        (resolve_path env 0 st).2

/-- sys_link_ret (link.h lines 114-146): return at once on an unhandled
error (the extracted code pops no entry there); otherwise, with the pending
entry, decide pass_to_userspace, invalidate the source inode on success, and
when passing, set the resolver up for the target path and dispatch it — the
entry is popped at line 144 only when that dispatch could not be issued
(or the event does not pass), since a successful dispatch never returns. -/
def sys_link_ret (env : LinkEnv) (retval : Int) (st : EngineState) : EngineState :=
  if env.unhandled retval then st
  else
    match peek_syscall st with
    | none => st
    | some sc =>
      let pass := (!sc.discarded) && env.eventEnabled
      let st := { st with invalidations :=
        if 0 ≤ retval then
          st.invalidations ++
            [{ mount_id := sc.link.src_file.path_key.mount_id,
               ino := sc.link.src_file.path_key.ino, bump := !pass }]
        else st.invalidations }
      if pass then
        let sc := { sc with resolver :=
          { dentry := sc.link.target_dentry, key := sc.link.target_file.path_key,
            discarder_type := 0, callback := PR_PROGKEY_CB_LINK_DST,
            iteration := 0, ret := 0 } }
        let st := { st with cache := some sc }
        let out := resolve_path env retval st
        if out.1 then out.2 else (pop_syscall out.2).2
      else (pop_syscall st).2

/-- State after the entry probes of one instance: the syscall entry probe
(when the call came through a syscall, link.h lines 28-34) followed by the
do_linkat probe (lines 36-43). -/
def entryStage (env : LinkEnv) : EngineState :=
  kprobe_do_linkat env
    (if env.viaSyscallEntry then trace__sys_link env SYNC_SYSCALL initState else initState)

/-- State after the vfs_link probe (and the source-path resolver chain it
dispatches) has run on the entry-stage state. -/
def vfsStage (env : LinkEnv) : EngineState :=
  kprobe_vfs_link env (entryStage env)

/-- One complete link-syscall instance on one thread: syscall entry, the
do_linkat probe, one vfs_link hit with its source-path resolution, and the
syscall-exit handler with the target-path resolution and event emission. -/
def runInstance (env : LinkEnv) (retval : Int) : EngineState :=
  sys_link_ret env retval (vfsStage env)

/-!
Derived forms of the instance states, used to state and prove the
characterization lemmas the claim theorems rest on.
-/

/-- Outcome of the approver filter (filter_syscall) for an instance: the
entry's policy mode is the fetched one, so the filter fires exactly when the
deny list matches or the allow list does not (spec section 4.2). -/
def filterFires (env : LinkEnv) : Bool :=
  match env.policyMode with
  | PolicyMode.NO_FILTER => false
  | PolicyMode.DENY_LIST => env.approverMatch
  | PolicyMode.ALLOW_LIST => !env.approverMatch

/-- Whether the source-path resolver chain marks the instance discarded: its
dispatch was issued and its terminal state is DISCARDED. -/
def srcDiscards (env : LinkEnv) : Bool :=
  env.srcDispatchOk && (env.srcTerminal == DrStatus.discarded)

/-- The pass_to_userspace value sys_link_ret computes for the instance
(link.h line 124): not discarded, and the event type enabled. -/
def passToUserspace (env : LinkEnv) : Bool :=
  !(filterFires env || srcDiscards env) && env.eventEnabled

/-- Whether the instance publishes an event: entered (not process-discarded),
the return value handled, passing to user space, and the target-path
resolver dispatch issued. -/
def emits (env : LinkEnv) (retval : Int) : Bool :=
  !env.processDiscarded && !(env.unhandled retval) && passToUserspace env && env.dstDispatchOk

/-- The synthetic inode forged for the hard-link target (link.h line 80). -/
def fakeIno (env : LinkEnv) : Nat := (FAKE_INODE_MSW <<< 32) ||| (env.rand % 2 ^ 32)

/-- The source FileRecord as it stands at emission time: mount id from the
target path, inode and metadata from the source dentry, ring-buffer
reference filled by the source resolver callback when it ran. -/
def expectedSrcFile (env : LinkEnv) : FileRecord :=
  { path_key := { mount_id := env.targetPathMountId, ino := env.src_dentry.ino },
    metadata := env.src_dentry.fmeta, flags := 0,
    path_ref := if env.srcDispatchOk then env.srcPathRef else 0 }

/-- The target FileRecord as it stands in the emitted event: synthetic
inode, source mount and metadata, overlay flag, ring-buffer reference filled
in the event copy by dr_link_dst_callback. -/
def expectedTargetFile (env : LinkEnv) : FileRecord :=
  { path_key := { mount_id := env.targetPathMountId, ino := fakeIno env },
    metadata := env.src_dentry.fmeta,
    flags := if env.src_dentry.overlay then 0 ||| UPPER_LAYER else 0,
    path_ref := env.dstPathRef }

/-- The one event an accepted instance publishes. -/
def expectedEvent (env : LinkEnv) (retval : Int) : LinkEvent :=
  { etype := EVENT_LINK, timestamp := env.now, retval := retval,
    flags := if env.viaSyscallEntry then 0 else EVENT_FLAGS_ASYNC,
    source := expectedSrcFile env, target := expectedTargetFile env,
    process := env.procCtx, container := env.containerCtx, span := env.spanCtx }

/-- A zeroed file record (C aggregate initialization). -/
def zeroFile : FileRecord :=
  { path_key := { mount_id := 0, ino := 0 }, metadata := 0, flags := 0, path_ref := 0 }

/-- A zeroed dentry handle (NULL). -/
def zeroDentry : Dentry := { addr := 0, ino := 0, fmeta := 0, overlay := false }

/-- A zeroed resolver record (C aggregate initialization). -/
def zeroResolver : ResolverRec :=
  { dentry := zeroDentry, key := { mount_id := 0, ino := 0 }, discarder_type := 0,
    callback := 0, iteration := 0, ret := 0 }

/-- The cache entry trace__sys_link pushes for an instance. -/
def freshEntry (env : LinkEnv) : SyscallCache :=
  { etype := EVENT_LINK, policyMode := env.policyMode,
    async := if env.viaSyscallEntry then SYNC_SYSCALL else ASYNC_SYSCALL,
    discarded := false,
    link := { src_dentry := zeroDentry, target_dentry := zeroDentry,
              src_file := zeroFile, target_file := zeroFile },
    resolver := zeroResolver }

/-- The engine state after the entry probes of a non-process-discarded
instance: one push, the fresh entry pending. -/
def pushedState (env : LinkEnv) : EngineState :=
  { initState with cache := some (freshEntry env), pushes := 1 }

/-- The cache entry as it stands once kprobe_vfs_link (and, unless the
filter fired, the source resolver chain) has run. -/
def vfsEntry (env : LinkEnv) : SyscallCache :=
  if filterFires env then
    { etype := EVENT_LINK, policyMode := env.policyMode,
      async := if env.viaSyscallEntry then SYNC_SYSCALL else ASYNC_SYSCALL,
      discarded := true,
      link := { src_dentry := env.src_dentry,
                target_dentry := if env.pos4 then env.parm4_dentry else env.parm3_dentry,
                src_file := { path_key := { mount_id := env.targetPathMountId,
                                            ino := env.src_dentry.ino },
                              metadata := 0, flags := 0, path_ref := 0 },
                target_file := zeroFile },
      resolver := zeroResolver }
  else
    { etype := EVENT_LINK, policyMode := env.policyMode,
      async := if env.viaSyscallEntry then SYNC_SYSCALL else ASYNC_SYSCALL,
      discarded := srcDiscards env,
      link := { src_dentry := env.src_dentry,
                target_dentry := if env.pos4 then env.parm4_dentry else env.parm3_dentry,
                src_file := expectedSrcFile env,
                target_file := { expectedTargetFile env with path_ref := 0 } },
      resolver := { dentry := env.src_dentry,
                    key := { mount_id := env.targetPathMountId, ino := env.src_dentry.ino },
                    discarder_type := if env.policyMode ≠ PolicyMode.NO_FILTER then EVENT_LINK else 0,
                    callback := PR_PROGKEY_CB_LINK_SRC_KPROBE, iteration := 0,
                    ret := if env.srcDispatchOk then statusCode env.srcTerminal else 0 } }

/-- The engine state once kprobe_vfs_link has run on a
non-process-discarded instance. -/
def vfsState (env : LinkEnv) : EngineState :=
  { cache := some (vfsEntry env), emitted := [], invalidations := [], pushes := 1, pops := 0,
    dispatches := if filterFires env then 0 else if env.srcDispatchOk then 1 else 0,
    monitorDiscarded := if filterFires env then 0 else if srcDiscards env then 1 else 0 }

/-- The invalidate_inode record sys_link_ret files for a successful call. -/
def invRecord (env : LinkEnv) : Invalidation :=
  { mount_id := env.targetPathMountId, ino := env.src_dentry.ino,
    bump := !passToUserspace env }

/-!
Segmented path resolver (spec section 4.3).  Its implementation,
helpers/path_resolver.h, is not among the extracted sources, so the walk is
modelled from the spec: given a starting kernel directory entry it walks
ancestors toward the root appending each component, each invocation
processes at most a fixed number B of components, and an incomplete walk
hands its continuation to a further invocation until the root is reached.
-/

/-- Modelled from the spec: a dentry as seen by the resolver, a chain of
named links ending at the filesystem root (spec section 4.3: the walk
ascends ancestors toward the root). -/
inductive KDentry where
  | root : KDentry
  | node : Nat → KDentry → KDentry
  deriving DecidableEq, Inhabited

/-- Directory depth of a dentry: number of components above the root. -/
def KDentry.depth : KDentry → Nat
  | KDentry.root => 0
  | KDentry.node _ p => p.depth + 1

/-- Modelled from the spec: the unbounded single-pass ancestor walk, the
reference the segmented protocol must agree with — it appends every
component from the starting dentry up to the root in one pass. -/
def singlePassWalk : KDentry → List Nat
  | KDentry.root => []
  | KDentry.node n p => n :: singlePassWalk p

/-- Modelled from the spec: one bounded resolver invocation with step budget
b.  It appends at most b components; reaching the root ends the walk (first
component of the result, second none), exhausting the budget at a node hands
that node to a continuation (second component some). -/
def stepInvocation : Nat → KDentry → List Nat × Option KDentry
  | _, KDentry.root => ([], none)
  | 0, d => ([], some d)
  | b + 1, KDentry.node n p =>
    let out := stepInvocation b p
    (n :: out.1, out.2)

/-- Modelled from the spec: the whole segmented resolution with
per-invocation budget B — bounded invocations chained through continuations
until the root is reached.  Result: (number of resolver invocations run,
ordered component sequence).  A budget of 0 can never finish and is returned
as an immediate failure (the spec's budget is a positive host constant). -/
def segmentedResolve (B : Nat) (d : KDentry) : Nat × List Nat :=
  match B with
  | 0 => (0, [])
  | b + 1 =>
    match hs : stepInvocation (b + 1) d with
    | (_cs, none) => (1, _cs)
    | (_cs, some d2) =>
      let rest := segmentedResolve (b + 1) d2
      (rest.1 + 1, _cs ++ rest.2)
termination_by d.depth
decreasing_by
  have key : ∀ (bb : Nat) (dd : KDentry) (cs2 : List Nat) (d3 : KDentry),
      stepInvocation bb dd = (cs2, some d3) → d3.depth + bb = dd.depth := by
    intro bb
    induction bb with
    | zero =>
      intro dd cs2 d3 h
      cases dd with
      | root => simp [stepInvocation] at h
      | node n p =>
        simp [stepInvocation] at h
        simp [h.2.symm]
    | succ b2 ih =>
      intro dd cs2 d3 h
      cases dd with
      | root => simp [stepInvocation] at h
      | node n p =>
        simp [stepInvocation] at h
        have := ih p _ d3 (Prod.ext rfl h.2)
        simp [KDentry.depth]
        omega
  have := key (b + 1) d _cs d2 hs
  omega

/-!
Bounded HTTP capture buffer,
src/pkg/network/ebpf/c/protocols/http/buffer.h, read_into_buffer (lines
20-26).  HTTP_BUFFER_SIZE is defined in protocols/http/types.h, outside the
extracted sources, so the model is parametric in it.  The source computes
the u32 final_size = min(data_size, HTTP_BUFFER_SIZE) and then requests a
copy of final_size - 1 bytes in u32 arithmetic; the subtraction is modelled
as adding 2^32 - 1 modulo 2^32, which is exactly the u32 wraparound.
-/

/-- Number of bytes read_into_buffer asks bpf_probe_read_user to copy: the
u32 value final_size - 1 where final_size = min(data_size, HBS) reduced to
u32 (buffer.h lines 22 and 25). -/
def ribCopyLen (HBS data_size : Nat) : Nat :=
  ((if data_size < HBS then data_size else HBS) % 2 ^ 32 + (2 ^ 32 - 1)) % 2 ^ 32

/-- read_into_buffer (buffer.h lines 20-26): zero the HBS-byte buffer, then
copy the requested number of bytes from the data into its front.  Result:
(requested copy length, final buffer contents by index).  An index below the
requested length holds the corresponding data byte, any other index keeps
the zero fill. -/
def read_into_buffer (HBS : Nat) (data : Nat → Nat) (data_size : Nat) : Nat × (Nat → Nat) :=
  (ribCopyLen HBS data_size,
    fun i => if i < ribCopyLen HBS data_size then data i else 0)

/-- The bounded-copy property exactly as claimed of read_into_buffer for a
given data_size: the requested copy length stays within the buffer, and the
final byte of the buffer is left zero (null termination). -/
def boundedCopyClaim (HBS : Nat) (data : Nat → Nat) (data_size : Nat) : Prop :=
  (read_into_buffer HBS data data_size).1 ≤ HBS ∧
  (read_into_buffer HBS data data_size).2 (HBS - 1) = 0

/-!
Concrete instances used by the closed theorems.
-/

/-- A concrete environment of a plain, accepted, synchronous link call. -/
def baseEnv : LinkEnv :=
  { policyMode := PolicyMode.NO_FILTER, processDiscarded := false, approverMatch := false,
    eventEnabled := true, unhandled := fun r => decide (r < 0),
    viaSyscallEntry := true,
    src_dentry := { addr := 100, ino := 42, fmeta := 7, overlay := false },
    parm3_dentry := { addr := 200, ino := 55, fmeta := 8, overlay := false },
    parm4_dentry := { addr := 300, ino := 66, fmeta := 9, overlay := false },
    pos4 := false, targetPathMountId := 17, rand := 1234,
    srcDispatchOk := true, srcTerminal := DrStatus.done,
    dstDispatchOk := true, dstTerminal := DrStatus.done,
    srcPathRef := 5, dstPathRef := 6, now := 1000, procCtx := 11, containerCtx := 12,
    spanCtx := 13 }

/-- Environment whose process-level policy discards the event at entry. -/
def c3wEnv : LinkEnv := { baseEnv with processDiscarded := true }

/-- Environment whose target-path resolution terminates in ERROR. -/
def c4Env : LinkEnv := { baseEnv with dstTerminal := DrStatus.err }

/-- Environment of an asynchronous (do_linkat-entered) instance. -/
def c5Env : LinkEnv := { baseEnv with viaSyscallEntry := false }

/-- Environment whose source inode happens to collide with the synthetic
target inode the instance forges (upper word FAKE_INODE_MSW, lower word
equal to the drawn random value). -/
def c7Env : LinkEnv :=
  { baseEnv with
      src_dentry := { addr := 100, ino := (FAKE_INODE_MSW <<< 32) ||| 77, fmeta := 7,
                      overlay := false },
      rand := 77 }

/-- Environment under a deny-list policy whose source matches the
configured discarder. -/
def c8wEnv : LinkEnv :=
  { baseEnv with policyMode := PolicyMode.DENY_LIST, approverMatch := true }

/-- A cache entry whose target dentry has already been captured. -/
def c10Entry : SyscallCache :=
  { freshEntry baseEnv with
      link := { (freshEntry baseEnv).link with
                  target_dentry := { addr := 77, ino := 9, fmeta := 3, overlay := false } } }

/-- An engine state holding c10Entry as the pending link entry. -/
def c10St : EngineState := { initState with cache := some c10Entry }

/-- A starting dentry of directory depth five. -/
def chain5 : KDentry :=
  KDentry.node 1 (KDentry.node 2 (KDentry.node 3 (KDentry.node 4 (KDentry.node 5 KDentry.root))))

/-!
Characterization lemmas: every stage of one instance is put in an explicit
normal form, so each claim theorem is a small corollary.
-/

/-- The approver filter of an entry whose policy mode is the fetched one
fires exactly when filterFires does. -/
theorem filter_syscall_eq (env : LinkEnv) (sc : SyscallCache)
    (h : sc.policyMode = env.policyMode) : filter_syscall env sc = filterFires env := by
  unfold filter_syscall filterFires
  rw [h]

/-- A process-discarded instance stays at the initial state through the
entry probes: nothing is pushed. -/
theorem entryStage_pd (env : LinkEnv) (hpd : env.processDiscarded = true) :
    entryStage env = initState := by
  cases hvs : env.viaSyscallEntry <;>
    simp [entryStage, kprobe_do_linkat, trace__sys_link, peek_syscall, initState, hpd, hvs]

/-- A non-process-discarded instance holds exactly the fresh entry after the
entry probes, whichever of the two entry paths ran. -/
theorem entryStage_eq (env : LinkEnv) (hpd : env.processDiscarded = false) :
    entryStage env = pushedState env := by
  cases hvs : env.viaSyscallEntry <;>
    simp [entryStage, kprobe_do_linkat, trace__sys_link, peek_syscall, initState, hpd, hvs,
      cache_syscall, pushedState, freshEntry, zeroDentry, zeroFile, zeroResolver,
      SYNC_SYSCALL, ASYNC_SYSCALL]

/-- A process-discarded instance is still at the initial state after the
vfs_link probe. -/
theorem vfsStage_pd (env : LinkEnv) (hpd : env.processDiscarded = true) :
    vfsStage env = initState := by
  rw [vfsStage, entryStage_pd env hpd]
  simp [kprobe_vfs_link, peek_syscall, initState]

/-- Normal form of the state after kprobe_vfs_link and the source-path
resolver chain of a non-process-discarded instance. -/
theorem vfsStage_eq (env : LinkEnv) (hpd : env.processDiscarded = false) :
    vfsStage env = vfsState env := by
  rw [vfsStage, entryStage_eq env hpd]
  unfold kprobe_vfs_link
  simp only [pushedState, peek_syscall, freshEntry, zeroDentry]
  rw [filter_syscall_eq env _ rfl]
  cases hff : filterFires env
  · simp only [Bool.false_eq_true, if_neg, ite_false]
    unfold resolve_path
    simp only [peek_syscall]
    have hcb : (PR_PROGKEY_CB_LINK_SRC_KPROBE = PR_PROGKEY_CB_LINK_DST) = False := by
      simp [PR_PROGKEY_CB_LINK_SRC_KPROBE, PR_PROGKEY_CB_LINK_DST]
    cases hov : env.src_dentry.overlay
    · cases hso : env.srcDispatchOk
      · simp [hcb, vfsState, vfsEntry, hff, hso, hov, expectedSrcFile, expectedTargetFile,
          fakeIno, initState, zeroFile, srcDiscards]
      · unfold kprobe_dr_link_src_callback
        simp only [peek_syscall, hcb]
        cases hst : env.srcTerminal <;>
          simp [hcb, hso, hst, hov, vfsState, vfsEntry, hff, expectedSrcFile, expectedTargetFile,
            fakeIno, initState, zeroFile, srcDiscards, statusCode, mark_as_discarded,
            DENTRY_DISCARDED, DENTRY_ERROR]
    · cases hso : env.srcDispatchOk
      · simp [hcb, vfsState, vfsEntry, hff, hso, hov, expectedSrcFile, expectedTargetFile,
          fakeIno, initState, zeroFile, srcDiscards]
      · unfold kprobe_dr_link_src_callback
        simp only [peek_syscall, hcb]
        cases hst : env.srcTerminal <;>
          simp [hcb, hso, hst, hov, vfsState, vfsEntry, hff, expectedSrcFile, expectedTargetFile,
            fakeIno, initState, zeroFile, srcDiscards, statusCode, mark_as_discarded,
            DENTRY_DISCARDED, DENTRY_ERROR]
  · simp [hff, vfsState, vfsEntry, initState, zeroFile, zeroResolver, mark_as_discarded]

/-- The vfsEntry is marked discarded exactly when the filter fired or the
source resolver discarded. -/
theorem vfsEntry_discarded (env : LinkEnv) :
    (vfsEntry env).discarded = (filterFires env || srcDiscards env) := by
  cases hff : filterFires env <;> simp [vfsEntry, hff]

/-- The async flag survives into the vfsEntry. -/
theorem vfsEntry_async (env : LinkEnv) :
    (vfsEntry env).async = if env.viaSyscallEntry then SYNC_SYSCALL else ASYNC_SYSCALL := by
  cases hff : filterFires env <;> simp [vfsEntry, hff]

/-- The source mount id captured in the entry, on both filter branches. -/
theorem vfsEntry_src_mount (env : LinkEnv) :
    (vfsEntry env).link.src_file.path_key.mount_id = env.targetPathMountId := by
  cases hff : filterFires env <;> simp [vfsEntry, hff, expectedSrcFile]

/-- The source inode captured in the entry, on both filter branches. -/
theorem vfsEntry_src_ino (env : LinkEnv) :
    (vfsEntry env).link.src_file.path_key.ino = env.src_dentry.ino := by
  cases hff : filterFires env <;> simp [vfsEntry, hff, expectedSrcFile]

/-- When the filter did not fire, the source file record of the entry is
the expected one. -/
theorem vfsEntry_src_file (env : LinkEnv) (hff : filterFires env = false) :
    (vfsEntry env).link.src_file = expectedSrcFile env := by
  simp [vfsEntry, hff]

/-- When the filter did not fire, the target file record of the entry is
the expected one up to the ring-buffer reference (filled at emission). -/
theorem vfsEntry_target_file (env : LinkEnv) (hff : filterFires env = false) :
    (vfsEntry env).link.target_file = { expectedTargetFile env with path_ref := 0 } := by
  simp [vfsEntry, hff]

/-- Components of a true pass_to_userspace decision. -/
theorem pass_components (env : LinkEnv) (h : passToUserspace env = true) :
    filterFires env = false ∧ srcDiscards env = false ∧ env.eventEnabled = true := by
  simp [passToUserspace] at h
  exact ⟨h.1.1, h.1.2, h.2⟩

/-- Master characterization of one complete link-syscall instance. -/
theorem runInstance_eq (env : LinkEnv) (retval : Int) :
    runInstance env retval =
      if env.processDiscarded then initState
      else if env.unhandled retval then vfsState env
      else
        { cache := none,
          emitted := if passToUserspace env && env.dstDispatchOk then
              [expectedEvent env retval] else [],
          invalidations := if 0 ≤ retval then [invRecord env] else [],
          pushes := 1, pops := 1,
          dispatches := (vfsState env).dispatches +
            (if passToUserspace env && env.dstDispatchOk then 1 else 0),
          monitorDiscarded := (vfsState env).monitorDiscarded } := by
  unfold runInstance
  cases hpd : env.processDiscarded
  · rw [vfsStage_eq env hpd]
    unfold sys_link_ret
    cases hun : env.unhandled retval
    · simp only [hun, Bool.false_eq_true, if_neg, ite_false, peek_syscall, vfsState]
      simp only [vfsEntry_discarded]
      cases hpass : (!(filterFires env || srcDiscards env) && env.eventEnabled)
      · have hpass2 : passToUserspace env = false := by rw [passToUserspace, hpass]
        simp [hpass, hpass2, pop_syscall, invRecord, vfsEntry_src_mount, vfsEntry_src_ino,
          vfsState, hpd]
      · have hpass2 : passToUserspace env = true := by rw [passToUserspace, hpass]
        obtain ⟨hff, hsd, hee⟩ := pass_components env hpass2
        unfold resolve_path
        simp only [peek_syscall]
        have hcb : (PR_PROGKEY_CB_LINK_DST = PR_PROGKEY_CB_LINK_DST) = True := by simp
        cases hdd : env.dstDispatchOk
        · simp [hpass, hpass2, hdd, hcb, pop_syscall, invRecord, vfsEntry_src_mount,
            vfsEntry_src_ino, vfsState, hpd]
        · unfold dr_link_dst_callback
          simp only [pop_syscall, hcb, hdd]
          simp [hpass, hpass2, hdd, hcb, hun, invRecord, vfsEntry_src_mount,
            vfsEntry_src_ino, vfsState, hpd, expectedEvent, vfsEntry_async,
            vfsEntry_src_file env hff, vfsEntry_target_file env hff,
            expectedSrcFile, expectedTargetFile, SYNC_SYSCALL, ASYNC_SYSCALL]
          cases hvs : env.viaSyscallEntry <;> simp [hvs]
    · simp [hun, vfsState, hpd]
  · rw [vfsStage_pd env hpd]
    unfold sys_link_ret
    cases hun : env.unhandled retval <;> simp [hun, peek_syscall, initState, hpd]

/-- The synthetic target inode always carries FAKE_INODE_MSW in its upper
32-bit word. -/
theorem fakeIno_shiftRight (env : LinkEnv) : fakeIno env >>> 32 = FAKE_INODE_MSW := by
  unfold fakeIno
  apply Nat.eq_of_testBit_eq
  intro i
  rw [Nat.testBit_shiftRight, Nat.testBit_lor, Nat.testBit_shiftLeft]
  have hb : (env.rand % 2 ^ 32).testBit (32 + i) = false := by
    apply Nat.testBit_lt_two_pow
    calc env.rand % 2 ^ 32 < 2 ^ 32 := Nat.mod_lt _ (by norm_num)
      _ ≤ 2 ^ (32 + i) := Nat.pow_le_pow_right (by omega) (by omega)
  rw [hb]
  simp [Nat.add_sub_cancel_left, Nat.le_add_right]

/-- A bounded invocation whose budget covers the whole remaining depth
finishes the walk in one go. -/
theorem stepInvocation_of_le (b : Nat) (d : KDentry) (h : d.depth ≤ b) :
    stepInvocation b d = (singlePassWalk d, none) := by
  induction d generalizing b with
  | root => cases b <;> simp [stepInvocation, singlePassWalk]
  | node n p ih =>
    cases b with
    | zero => simp [KDentry.depth] at h
    | succ b2 =>
      simp [KDentry.depth] at h
      simp [stepInvocation, singlePassWalk, ih b2 h]

/-- A bounded invocation below the remaining depth consumes exactly its
budget and hands over a continuation dentry b levels up. -/
theorem stepInvocation_of_lt (b : Nat) :
    ∀ (d : KDentry), b < d.depth →
      ∃ d2, stepInvocation b d = ((singlePassWalk d).take b, some d2) ∧
        d2.depth + b = d.depth ∧ singlePassWalk d2 = (singlePassWalk d).drop b := by
  induction b with
  | zero =>
    intro d h
    cases d with
    | root => simp [KDentry.depth] at h
    | node n p => exact ⟨KDentry.node n p, by simp [stepInvocation], by simp, by simp⟩
  | succ b2 ih =>
    intro d h
    cases d with
    | root => simp [KDentry.depth] at h
    | node n p =>
      simp [KDentry.depth] at h
      obtain ⟨d2, h1, h2, h3⟩ := ih p h
      exact ⟨d2, by simp [stepInvocation, singlePassWalk, h1],
        by simp [KDentry.depth]; omega, by simp [singlePassWalk, h3]⟩

/-- Full correctness of the segmented resolution for a positive budget: the
component sequence equals the single-pass walk, and the number of
invocations is 1 for the root and ceil(depth / B) otherwise. -/
theorem segmentedResolve_spec (B : Nat) (hB : 1 ≤ B) :
    ∀ (k : Nat) (d : KDentry), d.depth ≤ k →
      (segmentedResolve B d).2 = singlePassWalk d ∧
      (segmentedResolve B d).1 = if d.depth = 0 then 1 else (d.depth - 1) / B + 1 := by
  intro k
  induction k with
  | zero =>
    intro d hd
    cases d with
    | root =>
      obtain ⟨b, rfl⟩ : ∃ b, B = b + 1 := ⟨B - 1, by omega⟩
      simp [segmentedResolve, stepInvocation, singlePassWalk, KDentry.depth]
    | node n p => simp [KDentry.depth] at hd
  | succ k ih =>
    intro d hd
    obtain ⟨b, rfl⟩ : ∃ b, B = b + 1 := ⟨B - 1, by omega⟩
    by_cases hle : d.depth ≤ b + 1
    · rw [segmentedResolve]
      rw [stepInvocation_of_le (b + 1) d hle]
      constructor
      · rfl
      · cases hdz : d.depth with
        | zero => simp [hdz]
        | succ dd =>
          simp
          have : dd / (b + 1) = 0 := Nat.div_eq_of_lt (by omega)
          simp [hdz] at hle ⊢
          exact this
    · push_neg at hle
      obtain ⟨d2, h1, h2, h3⟩ := stepInvocation_of_lt (b + 1) d hle
      rw [segmentedResolve]
      rw [h1]
      have hd2 : d2.depth ≤ k := by omega
      obtain ⟨ihw, ihn⟩ := ih d2 hd2
      constructor
      · simp [ihw, h3, List.take_append_drop]
      · simp [ihn]
        have hdz : d.depth ≠ 0 := by omega
        by_cases hz2 : d2.depth = 0
        · simp [hz2, hdz]
          have : d.depth = b + 1 := by omega
          rw [this]
          have : (b + 1 - 1) / (b + 1) = 0 := Nat.div_eq_of_lt (by omega)
          omega
        · simp [hz2, hdz]
          have e1 : d.depth - 1 = (d2.depth - 1) + (b + 1) := by omega
          rw [e1, Nat.add_div_right _ (by omega)]

/-- The copy length read_into_buffer requests, for a positive data size:
one less than min(data_size, HBS). -/
theorem ribCopyLen_eq (HBS data_size : Nat) (h1 : 1 ≤ data_size) (h2 : 1 ≤ HBS)
    (h3 : HBS < 2 ^ 32) :
    ribCopyLen HBS data_size = (if data_size < HBS then data_size else HBS) - 1 := by
  unfold ribCopyLen
  have hfs : (if data_size < HBS then data_size else HBS) % 2 ^ 32 =
      if data_size < HBS then data_size else HBS := Nat.mod_eq_of_lt (by split <;> omega)
  rw [hfs]
  have e : (if data_size < HBS then data_size else HBS) + (2 ^ 32 - 1) =
      ((if data_size < HBS then data_size else HBS) - 1) + 2 ^ 32 := by
    split <;> omega
  rw [e, Nat.add_mod_right]
  exact Nat.mod_eq_of_lt (by split <;> omega)

/-!
Claim theorems.
-/

/-- C1: the claimed invariant — every push of a SyscallCacheEntry is paired
with exactly one pop on every outcome branch, the unhandled-error return
included — fails on the code: sys_link_ret returns on IS_UNHANDLED_ERROR
before any pop, so a pushed entry is left in the cache (one push, zero
pops) when the intercepted call returns an unhandled error. -/
theorem c1_unhandled_error_push_without_pop :
    (runInstance baseEnv (-2)).pushes = 1 ∧ (runInstance baseEnv (-2)).pops = 0 ∧
    (runInstance baseEnv (-2)).cache.isSome = true := by decide

/-- C2: every accepted (not process-discarded, not filter-discarded, not
resolver-discarded, event type enabled), successfully completing instance
whose resolver dispatches are issued emits exactly one LINK event, and its
payload holds the resolved source file record (source inode and metadata,
target-path mount id, source ring-buffer reference) and the resolved target
file record (synthetic inode, same mount, target ring-buffer reference). -/
theorem c2_accepted_success_single_event_with_both_files
    (env : LinkEnv) (retval : Int)
    (h1 : env.processDiscarded = false) (h2 : filterFires env = false)
    (h3 : env.srcDispatchOk = true) (h4 : env.srcTerminal ≠ DrStatus.discarded)
    (h5 : env.eventEnabled = true) (h6 : env.unhandled retval = false)
    (h7 : 0 ≤ retval) (h8 : env.dstDispatchOk = true) :
    (runInstance env retval).emitted = [expectedEvent env retval] ∧
    (expectedEvent env retval).source =
      { path_key := { mount_id := env.targetPathMountId, ino := env.src_dentry.ino },
        metadata := env.src_dentry.fmeta, flags := 0, path_ref := env.srcPathRef } ∧
    (expectedEvent env retval).target =
      { path_key := { mount_id := env.targetPathMountId, ino := fakeIno env },
        metadata := env.src_dentry.fmeta,
        flags := if env.src_dentry.overlay then 0 ||| UPPER_LAYER else 0,
        path_ref := env.dstPathRef } ∧
    (expectedEvent env retval).etype = EVENT_LINK := by
  have hsd : srcDiscards env = false := by simp [srcDiscards, h3, h4]
  have hpass : passToUserspace env = true := by simp [passToUserspace, h2, hsd, h5]
  refine ⟨?_, ?_, rfl, rfl⟩
  · rw [runInstance_eq]
    simp [h1, h6, hpass, h8]
  · simp [expectedEvent, expectedSrcFile, h3]

/-- C2 witness: the generic theorem applied to the concrete accepted
environment with retval 3. -/
theorem c2_witness_concrete :
    (runInstance baseEnv 3).emitted = [expectedEvent baseEnv 3] ∧
    (expectedEvent baseEnv 3).source =
      { path_key := { mount_id := baseEnv.targetPathMountId, ino := baseEnv.src_dentry.ino },
        metadata := baseEnv.src_dentry.fmeta, flags := 0, path_ref := baseEnv.srcPathRef } ∧
    (expectedEvent baseEnv 3).target =
      { path_key := { mount_id := baseEnv.targetPathMountId, ino := fakeIno baseEnv },
        metadata := baseEnv.src_dentry.fmeta,
        flags := if baseEnv.src_dentry.overlay then 0 ||| UPPER_LAYER else 0,
        path_ref := baseEnv.dstPathRef } ∧
    (expectedEvent baseEnv 3).etype = EVENT_LINK :=
  c2_accepted_success_single_event_with_both_files baseEnv 3 (by decide) (by decide)
    (by decide) (by decide) (by decide) (by decide) (by decide) (by decide)

/-- C3: when process-level policy discards the event at entry, no cache
entry is ever allocated (the push counter stays zero, so no transient
allocation happened either) and no event is ever emitted, for every return
value of the syscall. -/
theorem c3_process_discard_no_allocation_no_event
    (env : LinkEnv) (retval : Int) (h : env.processDiscarded = true) :
    (runInstance env retval).pushes = 0 ∧ (runInstance env retval).emitted = [] ∧
    (runInstance env retval).cache = none ∧ (runInstance env retval).invalidations = [] := by
  rw [runInstance_eq]
  simp [h, initState]

/-- C3 witness: the theorem at the concrete process-discarded environment
with an arbitrary later outcome (retval -7). -/
theorem c3_witness_concrete :
    (runInstance c3wEnv (-7)).pushes = 0 ∧ (runInstance c3wEnv (-7)).emitted = [] ∧
    (runInstance c3wEnv (-7)).cache = none ∧ (runInstance c3wEnv (-7)).invalidations = [] :=
  c3_process_discard_no_allocation_no_event c3wEnv (-7) (by decide)

/-- C4 counterexample: an instance whose target-path resolution terminates
in ERROR (not DONE) still emits its event — dr_link_dst_callback gates on
the syscall return value only, so the claim that emission occurs only if
every required resolution reached DONE is false on the code. -/
theorem c4_counterexample_emission_despite_error_terminal :
    c4Env.dstTerminal = DrStatus.err ∧ (runInstance c4Env 0).emitted.length = 1 := by decide

/-- C4 (amended): at most one event is emitted per instance, and an event
is emitted only if the return value is handled, the event type enabled and
the instance was never marked discarded (by the approver filter or by a
DISCARDED source resolution); a target resolution terminating in ERROR does
not prevent emission. -/
theorem c4_at_most_one_event_and_discard_gating (env : LinkEnv) (retval : Int) :
    (runInstance env retval).emitted.length ≤ 1 ∧
    ((runInstance env retval).emitted ≠ [] →
      env.unhandled retval = false ∧ env.eventEnabled = true ∧
      filterFires env = false ∧ srcDiscards env = false) := by
  rw [runInstance_eq]
  cases hpd : env.processDiscarded
  · cases hun : env.unhandled retval
    · cases hpdd : (passToUserspace env && env.dstDispatchOk)
      · simp [hpdd]
      · have h1 : passToUserspace env = true := by
          cases h : passToUserspace env
          · rw [h] at hpdd; simp at hpdd
          · rfl
        obtain ⟨hff, hsd, hee⟩ := pass_components env h1
        simp [hpdd, hun, hee, hff, hsd]
    · simp [hun, vfsState]
  · simp [initState]

/-- C5: on an unhandled error return the code does abort with no event, but
it does not reclaim the cache entry — the claim that the entry is still
popped fails: zero pops and the entry still cached after the instance. -/
theorem c5_unhandled_error_no_event_entry_leaks :
    (runInstance c5Env (-5)).emitted = [] ∧ (runInstance c5Env (-5)).pops = 0 ∧
    (runInstance c5Env (-5)).cache.isSome = true := by decide

/-- C6: for a positive per-invocation budget B smaller than the directory
depth D, the segmented resolution reaches its terminal state after
ceil(D/B) = (D + B - 1) / B bounded invocations, and its ordered component
sequence equals the unbounded single-pass ancestor walk from the same
starting dentry. -/
theorem c6_segmented_walk_matches_single_pass (B : Nat) (d : KDentry)
    (hB : 1 ≤ B) (hD : B < KDentry.depth d) :
    (segmentedResolve B d).1 = (KDentry.depth d + B - 1) / B ∧
    (segmentedResolve B d).2 = singlePassWalk d := by
  obtain ⟨hw, hn⟩ := segmentedResolve_spec B hB (KDentry.depth d) d le_rfl
  refine ⟨?_, hw⟩
  rw [hn]
  have hdz : KDentry.depth d ≠ 0 := by omega
  simp [hdz]
  have e : KDentry.depth d + B - 1 = (KDentry.depth d - 1) + B := by omega
  rw [e, Nat.add_div_right _ (by omega)]

/-- C6 witness: depth 5 with budget 2 resolves in ceil(5/2) = 3 invocations
to the same component sequence as the single pass. -/
theorem c6_witness_depth5_budget2 :
    (segmentedResolve 2 chain5).1 = (KDentry.depth chain5 + 2 - 1) / 2 ∧
    (segmentedResolve 2 chain5).2 = singlePassWalk chain5 :=
  c6_segmented_walk_matches_single_pass 2 chain5 (by decide) (by decide)

/-- C7 counterexample: the synthetic target inode is FAKE_INODE_MSW in the
upper word with a random lower word, and nothing guarantees it differs from
the source inode — with the source inode equal to that very value the
emitted event carries identical source and target inodes, refuting the
unconditional distinctness in the claim. -/
theorem c7_counterexample_synthetic_inode_collision :
    (runInstance c7Env 1).emitted.length = 1 ∧
    ((runInstance c7Env 1).emitted.getD 0 default).target.path_key.ino =
      ((runInstance c7Env 1).emitted.getD 0 default).source.path_key.ino := by decide

/-- C7 (amended): for a successful synchronous hard-link call whose source
inode does not carry FAKE_INODE_MSW in its upper word (every real inode),
the single emitted LINK event has a synthetic target inode distinct from
the source inode, target metadata copied from the source, equal mount ids,
a nonnegative retval and the async flag clear. -/
theorem c7_successful_hardlink_event_shape
    (env : LinkEnv) (retval : Int)
    (h0 : env.viaSyscallEntry = true)
    (h1 : env.processDiscarded = false) (h2 : filterFires env = false)
    (h3 : env.srcDispatchOk = true) (h4 : env.srcTerminal ≠ DrStatus.discarded)
    (h5 : env.eventEnabled = true) (h6 : env.unhandled retval = false)
    (h7 : 0 ≤ retval) (h8 : env.dstDispatchOk = true)
    (h9 : env.src_dentry.ino >>> 32 ≠ FAKE_INODE_MSW) :
    (runInstance env retval).emitted = [expectedEvent env retval] ∧
    (expectedEvent env retval).target.path_key.ino = fakeIno env ∧
    (expectedEvent env retval).target.path_key.ino ≠
      (expectedEvent env retval).source.path_key.ino ∧
    (expectedEvent env retval).target.metadata = (expectedEvent env retval).source.metadata ∧
    (expectedEvent env retval).target.path_key.mount_id =
      (expectedEvent env retval).source.path_key.mount_id ∧
    (expectedEvent env retval).etype = EVENT_LINK ∧
    0 ≤ (expectedEvent env retval).retval ∧
    (expectedEvent env retval).flags = 0 := by
  have hsd : srcDiscards env = false := by simp [srcDiscards, h3, h4]
  have hpass : passToUserspace env = true := by simp [passToUserspace, h2, hsd, h5]
  refine ⟨?_, rfl, ?_, rfl, rfl, rfl, ?_, ?_⟩
  · rw [runInstance_eq]
    simp [h1, h6, hpass, h8]
  · intro he
    apply h9
    have h10 := congrArg (fun x => x >>> 32) he
    simp only at h10
    have h11 : (expectedEvent env retval).target.path_key.ino >>> 32 = FAKE_INODE_MSW := by
      show fakeIno env >>> 32 = FAKE_INODE_MSW
      exact fakeIno_shiftRight env
    rw [h10] at h11
    exact h11
  · exact h7
  · simp [expectedEvent, h0]

/-- C7 witness: the amended theorem at the concrete accepted environment
with retval 0. -/
theorem c7_witness_concrete :
    (runInstance baseEnv 0).emitted = [expectedEvent baseEnv 0] ∧
    (expectedEvent baseEnv 0).target.path_key.ino = fakeIno baseEnv ∧
    (expectedEvent baseEnv 0).target.path_key.ino ≠
      (expectedEvent baseEnv 0).source.path_key.ino ∧
    (expectedEvent baseEnv 0).target.metadata = (expectedEvent baseEnv 0).source.metadata ∧
    (expectedEvent baseEnv 0).target.path_key.mount_id =
      (expectedEvent baseEnv 0).source.path_key.mount_id ∧
    (expectedEvent baseEnv 0).etype = EVENT_LINK ∧
    0 ≤ (expectedEvent baseEnv 0).retval ∧
    (expectedEvent baseEnv 0).flags = 0 :=
  c7_successful_hardlink_event_shape baseEnv 0 (by decide) (by decide) (by decide)
    (by decide) (by decide) (by decide) (by decide) (by decide) (by decide) (by decide)

/-- C8: for an instance whose source matches the configured deny-list
discarder, the cache entry is still created and tracked to the normal pop
at syscall exit, the inode invalidation for the source PathKey still runs
on a successful return, and zero events are emitted. -/
theorem c8_denylist_discard_invalidation_no_event
    (env : LinkEnv) (retval : Int)
    (h1 : env.processDiscarded = false)
    (h2 : env.policyMode = PolicyMode.DENY_LIST) (h3 : env.approverMatch = true)
    (h4 : env.unhandled retval = false) (h5 : 0 ≤ retval) :
    (runInstance env retval).pushes = 1 ∧
    (runInstance env retval).emitted = [] ∧
    (runInstance env retval).invalidations =
      [{ mount_id := env.targetPathMountId, ino := env.src_dentry.ino, bump := true }] ∧
    (runInstance env retval).pops = 1 ∧
    (runInstance env retval).cache = none := by
  have hff : filterFires env = true := by simp [filterFires, h2, h3]
  have hpass : passToUserspace env = false := by simp [passToUserspace, hff]
  rw [runInstance_eq]
  simp [h1, h4, hpass, h5, invRecord]

/-- C8 witness: the theorem at the concrete deny-list environment with
retval 0. -/
theorem c8_witness_concrete :
    (runInstance c8wEnv 0).pushes = 1 ∧
    (runInstance c8wEnv 0).emitted = [] ∧
    (runInstance c8wEnv 0).invalidations =
      [{ mount_id := c8wEnv.targetPathMountId, ino := c8wEnv.src_dentry.ino, bump := true }] ∧
    (runInstance c8wEnv 0).pops = 1 ∧
    (runInstance c8wEnv 0).cache = none :=
  c8_denylist_discard_invalidation_no_event c8wEnv 0 (by decide) (by decide) (by decide)
    (by decide) (by decide)

/-- C9 counterexample: at data_size = 0 the u32 subtraction final_size - 1
wraps to 2^32 - 1, so the requested copy is not bounded by the buffer size
and the final byte is not guaranteed zero — the claim fails for that
data_size. -/
theorem c9_counterexample_zero_data_size :
    ¬ boundedCopyClaim 160 (fun _ => 1) 0 := by
  unfold boundedCopyClaim read_into_buffer ribCopyLen
  decide

/-- C9 (amended): for every data_size of at least one (and a buffer size of
at least one byte, below 2^32), read_into_buffer performs a bounded copy:
it requests strictly fewer than HBS bytes, leaves the byte at index HBS - 1
zero, fills exactly the requested prefix from the data and leaves every
byte beyond the copy zero. -/
theorem c9_bounded_copy_null_terminated (HBS : Nat) (data : Nat → Nat) (data_size : Nat)
    (h1 : 1 ≤ data_size) (h2 : 1 ≤ HBS) (h3 : HBS < 2 ^ 32) :
    (read_into_buffer HBS data data_size).1 < HBS ∧
    (read_into_buffer HBS data data_size).2 (HBS - 1) = 0 ∧
    (∀ i, i < (read_into_buffer HBS data data_size).1 →
        (read_into_buffer HBS data data_size).2 i = data i) ∧
    (∀ i, (read_into_buffer HBS data data_size).1 ≤ i →
        (read_into_buffer HBS data data_size).2 i = 0) := by
  have hlen := ribCopyLen_eq HBS data_size h1 h2 h3
  unfold read_into_buffer
  rw [hlen]
  refine ⟨by split <;> omega, ?_, ?_, ?_⟩
  · have hno : ¬ (HBS - 1 < (if data_size < HBS then data_size else HBS) - 1) := by
      split <;> omega
    simp [hno]
  · intro i hi
    simp only at hi ⊢
    simp [hi]
  · intro i hi
    simp only at hi ⊢
    have : ¬ (i < (if data_size < HBS then data_size else HBS) - 1) := by omega
    simp [this]

/-- C9 witness: the amended theorem at buffer size 160 with a 7-byte copy. -/
theorem c9_witness_concrete :
    (read_into_buffer 160 (fun i => i + 1) 7).1 < 160 ∧
    (read_into_buffer 160 (fun i => i + 1) 7).2 (160 - 1) = 0 ∧
    (∀ i, i < (read_into_buffer 160 (fun i => i + 1) 7).1 →
        (read_into_buffer 160 (fun i => i + 1) 7).2 i = i + 1) ∧
    (∀ i, (read_into_buffer 160 (fun i => i + 1) 7).1 ≤ i →
        (read_into_buffer 160 (fun i => i + 1) 7).2 i = 0) :=
  c9_bounded_copy_null_terminated 160 (fun i => i + 1) 7 (by decide) (by decide) (by decide)

/-- C10: kprobe_vfs_link is idempotent per instance: on a state whose
pending entry already has a non-null target dentry, the hook returns with
the whole engine state unchanged — cache entry, file records, resolver
state and the dispatch counter included, so the resolver is not dispatched
again. -/
theorem c10_vfs_link_idempotent_once_target_captured
    (env : LinkEnv) (st : EngineState) (sc : SyscallCache)
    (h1 : st.cache = some sc) (h2 : sc.link.target_dentry.addr ≠ 0) :
    kprobe_vfs_link env st = st := by
  unfold kprobe_vfs_link peek_syscall
  rw [h1]
  simp [h2]

/-- C10 witness: the theorem at a concrete state whose entry has target
dentry address 77. -/
theorem c10_witness_concrete : kprobe_vfs_link baseEnv c10St = c10St :=
  c10_vfs_link_idempotent_once_target_captured baseEnv c10St c10Entry (by decide) (by decide)

end SecAgent
